import Mathlib

/-!
# Academic Allocation & Enrollment Consistency subsystem — shallow embedding

This file embeds the allocation/enrollment core of the ElearningManagement
backend (`backend/services/academic_service.py` and the link-management
endpoints of `backend/main.py`) as pure Lean functions over an explicit
database state, and proves the spec's claims about it.

The ORM layer (`models.py`) is not part of the source tree; the row types,
the `EnrollmentStatus` enumeration and column defaults are modelled from the
spec's data-model section (§3).  All decision logic is translated directly
from the Python service/endpoint code.
-/

namespace ELearn

/-- Modelled from the spec: `Enrollment.status ∈ {enrolled, completed,
dropped, ...}` (§3); the enum class itself lives in the absent `models.py`. -/
inductive EnrollmentStatus where
  | ENROLLED
  | COMPLETED
  | DROPPED
  deriving DecidableEq, Repr

/-- Modelled from the spec: string-valued Python enum constructor
`EnrollmentStatus(value)` used by `update_enrollment`; lowercase values per
§3 and the seed/fix scripts. Returns `none` where Python raises ValueError. -/
def EnrollmentStatus.ofString? : String → Option EnrollmentStatus
  | "enrolled" => some .ENROLLED
  | "completed" => some .COMPLETED
  | "dropped" => some .DROPPED
  | _ => none

/-- Modelled from the spec: `role ∈ {admin, lecturer, student}` (§3). -/
inductive UserRole where
  | ADMIN
  | LECTURER
  | STUDENT
  deriving DecidableEq, Repr

/-- Modelled from the spec: Department row (§3) — id, name, unique code,
description, active flag. -/
structure Department where
  id : Nat
  name : String
  code : String
  description : String
  is_active : Bool
  deriving DecidableEq, Repr

/-- Modelled from the spec: Program row (§3). -/
structure Program where
  id : Nat
  name : String
  code : String
  description : String
  program_type : String
  department_id : Nat
  duration_years : Int
  total_credits : Int
  is_active : Bool
  deriving DecidableEq, Repr

/-- Modelled from the spec: Course row (§3) — only the fields the embedded
operations read. -/
structure Course where
  id : Nat
  name : String
  code : String
  department_id : Nat
  max_capacity : Nat
  is_active : Bool
  deriving DecidableEq, Repr

/-- Modelled from the spec: User row (§3). -/
structure User where
  id : Nat
  name : String
  role : UserRole
  department_id : Option Nat
  is_active : Bool
  deriving DecidableEq, Repr

/-- Modelled from the spec: Enrollment row (§3) — student, course, program,
status, active flag, optional final grade. -/
structure Enrollment where
  id : Nat
  student_id : Nat
  course_id : Nat
  program_id : Nat
  status : EnrollmentStatus
  is_active : Bool
  final_grade : Option String
  deriving DecidableEq, Repr

/-- Modelled from the spec: ProgramLecturer row (§3) — lecturer↔program link
with a role label, active flag, assigned-by actor and timestamp. -/
structure ProgramLecturer where
  id : Nat
  program_id : Nat
  lecturer_id : Nat
  role : String
  assigned_by_id : Option Nat
  assigned_at : Nat
  is_active : Bool
  deriving DecidableEq, Repr

/-- Modelled from the spec: ProgramCourse row (§3) — course↔program link with
is_required flag, semester_order, active flag, allocated-by actor, timestamp. -/
structure ProgramCourse where
  id : Nat
  program_id : Nat
  course_id : Nat
  is_required : Bool
  semester_order : Int
  allocated_by_id : Option Nat
  allocated_at : Nat
  is_active : Bool
  deriving DecidableEq, Repr

/-- The relational store: one list of rows per table, plus the next
autoincrement id handed to freshly inserted rows. -/
structure DB where
  departments : List Department
  programs : List Program
  courses : List Course
  users : List User
  enrollments : List Enrollment
  program_lecturers : List ProgramLecturer
  program_courses : List ProgramCourse
  next_id : Nat
  deriving DecidableEq, Repr

/-- ORM `.first()`-then-mutate: update the first row matched by `p` and leave
every other row unchanged. -/
def updateFirst (p : α → Bool) (f : α → α) : List α → List α
  | [] => []
  | x :: xs => if p x then f x :: xs else x :: updateFirst p f xs

/-- HTTP-style error: status code and detail string. -/
abbrev HErr := Nat × String

/-- ASCII uppercase of one character, as Python's `str.upper` acts on the
ASCII codes used here. -/
def charUpper (c : Char) : Char :=
  if 'a' ≤ c ∧ c ≤ 'z' then Char.ofNat (c.toNat - 32) else c

/-- Python's `code.upper()` on the ASCII department/program codes. -/
def pyUpper (s : String) : String := ⟨s.data.map charUpper⟩

/-- ASCII lowercase of one character, as Python's `str.lower` acts on the
ASCII status values used here. -/
def charLower (c : Char) : Char :=
  if 'A' ≤ c ∧ c ≤ 'Z' then Char.ofNat (c.toNat + 32) else c

/-- Python's `request["status"].lower()` in `update_enrollment`. -/
def pyLower (s : String) : String := ⟨s.data.map charLower⟩

/-! ## `AcademicService.enroll_student` (academic_service.py 574-611)

Checks for *any* existing Enrollment row for (student, course) — no status
filter — then course existence, then capacity against the count of rows with
status=ENROLLED, then inserts a fresh ENROLLED row. -/

def enroll_student (db : DB) (student_id course_id program_id : Nat) :
    Except String DB :=
  match db.enrollments.find?
      (fun e => e.student_id == student_id && e.course_id == course_id) with
  | some _ => .error "Student is already enrolled in this course"
  | none =>
    match db.courses.find? (fun c => c.id == course_id) with
    | none => .error "Course not found"
    | some course =>
      let enrolled_count := (db.enrollments.filter
        (fun e => e.course_id == course_id
          && e.status == EnrollmentStatus.ENROLLED)).length
      if enrolled_count ≥ course.max_capacity then
        .error "Course is at full capacity"
      else
        .ok { db with
          enrollments := db.enrollments ++
            [{ id := db.next_id, student_id := student_id,
               course_id := course_id, program_id := program_id,
               status := EnrollmentStatus.ENROLLED, is_active := true,
               final_grade := none }],
          next_id := db.next_id + 1 }

/-! ## `AcademicService.create_department` (academic_service.py 65-94)

The code-uniqueness check filters on `Department.is_active == True`. -/

/-- Payload of `create_department`; `is_active` mirrors
`data.get("is_active", True)`. -/
structure DeptCreate where
  name : String
  code : String
  description : String
  is_active : Option Bool
  deriving DecidableEq, Repr

def create_department (db : DB) (data : DeptCreate) : Except String DB :=
  match db.departments.find?
      (fun d => d.code == pyUpper data.code && d.is_active) with
  | some _ => .error ("Department code '" ++ pyUpper data.code ++
      "' already exists in active departments")
  | none =>
    .ok { db with
      departments := db.departments ++
        [{ id := db.next_id, name := data.name, code := pyUpper data.code,
           description := data.description,
           is_active := data.is_active.getD true }],
      next_id := db.next_id + 1 }

/-! ## `AcademicService.update_department` (academic_service.py 96-132)

The rename-conflict check has *no* `is_active` filter: any other department
bearing the new code blocks the rename. -/

/-- Partial payload of `update_department`: a field is `none` when the key is
absent from the request dict. -/
structure DeptUpdate where
  name : Option String
  code : Option String
  description : Option String
  is_active : Option Bool
  deriving DecidableEq, Repr

/-- Field application of `update_department` on the fetched row. -/
def Department.applyUpdate (d : Department) (data : DeptUpdate) : Department :=
  { d with
    name := data.name.getD d.name
    code := (data.code.map pyUpper).getD d.code
    description := data.description.getD d.description
    is_active := data.is_active.getD d.is_active }

def update_department (db : DB) (department_id : Nat) (data : DeptUpdate) :
    Except String DB :=
  match db.departments.find? (fun d => d.id == department_id) with
  | none => .error "Department not found"
  | some department =>
    let conflict : Bool :=
      match data.code with
      | some c =>
        pyUpper c != department.code &&
          (db.departments.find?
            (fun d => d.code == pyUpper c && d.id != department_id)).isSome
      | none => false
    if conflict then
      .error "Department code already exists"
    else
      .ok { db with
        departments := updateFirst (fun d => d.id == department_id)
          (fun d => d.applyUpdate data) db.departments }

/-! ## `AcademicService.can_delete_department` / `delete_department`
(academic_service.py 134-200) -/

/-- Return value of `can_delete_department`. -/
structure CanDelete where
  can_delete : Bool
  reason : String
  active_programs : Option Nat
  active_courses : Option Nat
  deriving DecidableEq, Repr

def can_delete_department (db : DB) (department_id : Nat) : CanDelete :=
  match db.departments.find? (fun d => d.id == department_id) with
  | none =>
    { can_delete := false, reason := "Department not found",
      active_programs := none, active_courses := none }
  | some _ =>
    let active_programs := (db.programs.filter
      (fun p => p.department_id == department_id && p.is_active)).length
    let active_courses := (db.courses.filter
      (fun c => c.department_id == department_id && c.is_active)).length
    if active_programs > 0 || active_courses > 0 then
      { can_delete := false,
        reason := "Department has " ++ toString active_programs ++
          " active program(s) and " ++ toString active_courses ++
          " active course(s)",
        active_programs := some active_programs,
        active_courses := some active_courses }
    else
      { can_delete := true, reason := "Department can be safely deleted",
        active_programs := none, active_courses := none }

def delete_department (db : DB) (department_id : Nat) (force : Bool) :
    Except String DB :=
  match db.departments.find? (fun d => d.id == department_id) with
  | none => .error "Department not found"
  | some _ =>
    if !force then
      let active_programs := (db.programs.filter
        (fun p => p.department_id == department_id && p.is_active)).length
      let active_courses := (db.courses.filter
        (fun c => c.department_id == department_id && c.is_active)).length
      if active_programs > 0 || active_courses > 0 then
        .error ("Cannot delete department. It has " ++
          toString active_programs ++ " active program(s) and " ++
          toString active_courses ++
          " active course(s). Please deactivate or move them first.")
      else
        .ok { db with
          departments := updateFirst (fun d => d.id == department_id)
            (fun d => { d with is_active := false }) db.departments }
    else
      .ok { db with
        programs := db.programs.map (fun p =>
          if p.department_id == department_id then
            { p with is_active := false } else p),
        courses := db.courses.map (fun c =>
          if c.department_id == department_id then
            { c with is_active := false } else c),
        users := db.users.map (fun u =>
          if u.department_id == some department_id then
            { u with department_id := none } else u),
        departments := updateFirst (fun d => d.id == department_id)
          (fun d => { d with is_active := false }) db.departments }

/-! ## `AcademicService.update_program` (academic_service.py 379-452)

Rename-conflict check again has no `is_active` filter.  When the payload
carries a `lecturers` list, *every* ProgramLecturer row of the program is
deactivated and a brand-new row with role "lecturer" is inserted for each
listed id that names an existing lecturer — existing rows for the pair are
not reactivated. -/

/-- Partial payload of `update_program`; `lecturers` is `some ids` exactly
when the request dict carries a `"lecturers"` list. -/
structure ProgUpdate where
  name : Option String
  code : Option String
  description : Option String
  program_type : Option String
  department_id : Option Nat
  duration_years : Option Int
  total_credits : Option Int
  is_active : Option Bool
  lecturers : Option (List Nat)
  deriving DecidableEq, Repr

/-- Field application of `update_program` on the fetched row. -/
def Program.applyUpdate (p : Program) (data : ProgUpdate) : Program :=
  { p with
    name := data.name.getD p.name
    code := (data.code.map pyUpper).getD p.code
    description := data.description.getD p.description
    program_type := data.program_type.getD p.program_type
    department_id := data.department_id.getD p.department_id
    duration_years := data.duration_years.getD p.duration_years
    total_credits := data.total_credits.getD p.total_credits
    is_active := data.is_active.getD p.is_active }

/-- The fresh ProgramLecturer rows created in `update_program`'s lecturers
branch: one per valid lecturer id, role "lecturer", consecutive fresh ids.
`is_active = true` and the unset assign fields are modelled from the spec
(§3: active flag, assigned-by, timestamp; `models.py` column defaults are
not in the source tree). -/
def mkAssignments (program_id : Nat) : Nat → List Nat → List ProgramLecturer
  | _, [] => []
  | nid, lid :: rest =>
    { id := nid, program_id := program_id, lecturer_id := lid,
      role := "lecturer", assigned_by_id := none, assigned_at := 0,
      is_active := true } :: mkAssignments program_id (nid + 1) rest

def update_program (db : DB) (program_id : Nat) (data : ProgUpdate) :
    Except String DB :=
  match db.programs.find? (fun p => p.id == program_id) with
  | none => .error "Program not found"
  | some program =>
    let conflict : Bool :=
      match data.code with
      | some c =>
        pyUpper c != program.code &&
          (db.programs.find?
            (fun p => p.code == pyUpper c && p.id != program_id)).isSome
      | none => false
    if conflict then
      .error "Program code already exists"
    else
      let db1 : DB := { db with
        programs := updateFirst (fun p => p.id == program_id)
          (fun p => p.applyUpdate data) db.programs }
      match data.lecturers with
      | none => .ok db1
      | some ls =>
        let db2 : DB := { db1 with
          program_lecturers := db1.program_lecturers.map (fun a =>
            if a.program_id == program_id then
              { a with is_active := false } else a) }
        let lecturer_ids := ls.filter (fun lid => lid != 0)
        let valid := lecturer_ids.filter (fun lid =>
          (db2.users.find?
            (fun u => u.id == lid && u.role == UserRole.LECTURER)).isSome)
        .ok { db2 with
          program_lecturers := db2.program_lecturers ++
            mkAssignments program_id db2.next_id valid,
          next_id := db2.next_id + valid.length }

/-! ## `AcademicService.delete_program` (academic_service.py 454-477)

The unforced rejection is the fixed string
"Cannot delete program with active enrollments" — unlike
`delete_department`, it does not interpolate the count. -/

def delete_program (db : DB) (program_id : Nat) (force : Bool) :
    Except String DB :=
  match db.programs.find? (fun p => p.id == program_id) with
  | none => .error "Program not found"
  | some _ =>
    if !force then
      let active_enrollments := (db.enrollments.filter
        (fun e => e.program_id == program_id
          && e.status == EnrollmentStatus.ENROLLED)).length
      if active_enrollments > 0 then
        .error "Cannot delete program with active enrollments"
      else
        .ok { db with
          programs := updateFirst (fun p => p.id == program_id)
            (fun p => { p with is_active := false }) db.programs }
    else
      .ok { db with
        enrollments := db.enrollments.map (fun e =>
          if e.program_id == program_id then
            { e with status := EnrollmentStatus.DROPPED, is_active := false }
          else e),
        programs := updateFirst (fun p => p.id == program_id)
          (fun p => { p with is_active := false }) db.programs }

/-! ## `assign_lecturer_to_program` (main.py 3572-3654)

Admin-only endpoint.  `lecturer_id = request.get("lecturer_id")` is falsy
(`None` or `0`) → 400.  The pair lookup includes inactive rows; an active row
is rejected, an inactive row is reactivated in place with the requested role
and fresh assigned-by/at, otherwise a new row is inserted.  The new row's
`is_active = true` default is modelled from the spec (§3/§4.2, `models.py`
absent). -/

def assign_lecturer_to_program (db : DB) (program_id : Nat)
    (actor_id : Nat) (actor_role : UserRole)
    (lecturer_id? : Option Nat) (role : String) (now : Nat) :
    Except HErr DB :=
  if actor_role != UserRole.ADMIN then
    .error (403, "Access denied")
  else
    match lecturer_id? with
    | none => .error (400, "lecturer_id is required")
    | some lecturer_id =>
      if lecturer_id == 0 then
        .error (400, "lecturer_id is required")
      else
        match db.programs.find? (fun p => p.id == program_id) with
        | none => .error (404, "Program not found")
        | some _ =>
          match db.users.find? (fun u =>
              u.id == lecturer_id && u.role == UserRole.LECTURER) with
          | none => .error (404, "Lecturer not found")
          | some _ =>
            match db.program_lecturers.find? (fun a =>
                a.program_id == program_id
                && a.lecturer_id == lecturer_id) with
            | some existing =>
              if existing.is_active then
                .error (400, "Lecturer is already assigned to this program")
              else
                .ok { db with
                  program_lecturers := updateFirst (fun a =>
                      a.program_id == program_id
                      && a.lecturer_id == lecturer_id)
                    (fun a => { a with
                                is_active := true, role := role,
                                assigned_by_id := some actor_id,
                                assigned_at := now })
                    db.program_lecturers }
            | none =>
              .ok { db with
                program_lecturers := db.program_lecturers ++
                  [{ id := db.next_id, program_id := program_id,
                     lecturer_id := lecturer_id, role := role,
                     assigned_by_id := some actor_id, assigned_at := now,
                     is_active := true }],
                next_id := db.next_id + 1 }

/-! ## `allocate_course_to_program` (main.py 3963-4049)

Mirror of the lecturer flow over ProgramCourse, with `is_required` and
`semester_order` as the mutable attributes. -/

def allocate_course_to_program (db : DB) (program_id : Nat)
    (actor_id : Nat) (actor_role : UserRole)
    (course_id? : Option Nat) (is_required : Bool) (semester_order : Int)
    (now : Nat) : Except HErr DB :=
  if actor_role != UserRole.ADMIN then
    .error (403, "Access denied")
  else
    match course_id? with
    | none => .error (400, "course_id is required")
    | some course_id =>
      if course_id == 0 then
        .error (400, "course_id is required")
      else
        match db.programs.find? (fun p => p.id == program_id) with
        | none => .error (404, "Program not found")
        | some _ =>
          match db.courses.find? (fun c => c.id == course_id) with
          | none => .error (404, "Course not found")
          | some _ =>
            match db.program_courses.find? (fun a =>
                a.program_id == program_id && a.course_id == course_id) with
            | some existing =>
              if existing.is_active then
                .error (400, "Course is already allocated to this program")
              else
                .ok { db with
                  program_courses := updateFirst (fun a =>
                      a.program_id == program_id && a.course_id == course_id)
                    (fun a => { a with
                                is_active := true,
                                is_required := is_required,
                                semester_order := semester_order,
                                allocated_by_id := some actor_id,
                                allocated_at := now })
                    db.program_courses }
            | none =>
              .ok { db with
                program_courses := db.program_courses ++
                  [{ id := db.next_id, program_id := program_id,
                     course_id := course_id, is_required := is_required,
                     semester_order := semester_order,
                     allocated_by_id := some actor_id, allocated_at := now,
                     is_active := true }],
                next_id := db.next_id + 1 }

/-! ## `update_enrollment` (main.py 970-1001)

Admin-only.  A `"status"` key is lowercased and fed to the
`EnrollmentStatus` constructor — *any* valid status value is accepted,
including "enrolled" on a row currently DROPPED or COMPLETED.  (In the
source every raise inside this handler is re-wrapped as a 500 by the bare
`except Exception`; only the detail strings are modelled here.) -/

/-- Partial payload of `update_enrollment`. -/
structure EnrollUpdate where
  status : Option String
  final_grade : Option String
  deriving DecidableEq, Repr

def update_enrollment (db : DB) (enrollment_id : Nat)
    (actor_role : UserRole) (req : EnrollUpdate) : Except String DB :=
  if actor_role != UserRole.ADMIN then
    .error "Access denied"
  else
    match db.enrollments.find? (fun e => e.id == enrollment_id) with
    | none => .error "Enrollment not found"
    | some _ =>
      let statusRes : Except String (Option EnrollmentStatus) :=
        match req.status with
        | none => .ok none
        | some s =>
          match EnrollmentStatus.ofString? (pyLower s) with
          | none => .error ("Invalid enrollment status: " ++ s)
          | some st => .ok (some st)
      match statusRes with
      | .error e => .error e
      | .ok st? =>
        .ok { db with
          enrollments := updateFirst (fun e => e.id == enrollment_id)
            (fun e =>
              let e1 := match st? with
                | some st => { e with status := st }
                | none => e
              match req.final_grade with
              | some g => { e1 with final_grade := some g }
              | none => e1)
            db.enrollments }

/-! ## Helper lemmas about `updateFirst` and row lookup -/

theorem updateFirst_length (p : α → Bool) (f : α → α) (l : List α) :
    (updateFirst p f l).length = l.length := by
  induction l with
  | nil => rfl
  | cons x xs ih =>
    simp only [updateFirst]
    split <;> simp [ih]

theorem find?_updateFirst_self (p : α → Bool) (f : α → α) (l : List α) (x : α)
    (hpf : ∀ a, p (f a) = p a) (h : l.find? p = some x) :
    (updateFirst p f l).find? p = some (f x) := by
  induction l with
  | nil => simp at h
  | cons y ys ih =>
    by_cases hy : p y
    · rw [List.find?_cons_of_pos _ hy] at h
      cases h
      simp only [updateFirst, if_pos hy]
      rw [List.find?_cons_of_pos]
      rw [hpf]
      exact hy
    · rw [List.find?_cons_of_neg _ hy] at h
      simp only [updateFirst, if_neg hy]
      rw [List.find?_cons_of_neg _ hy]
      exact ih h

theorem filter_eq_nil_of_find?_none (p q : α → Bool) (l : List α)
    (himp : ∀ a, q a = true → p a = true) (h : l.find? p = none) :
    l.filter q = [] := by
  rw [List.find?_eq_none] at h
  rw [List.filter_eq_nil_iff]
  intro a ha hqa
  exact h a ha (himp a hqa)

theorem filter_eq_singleton_of_count_le_one (p : α → Bool) (l : List α)
    (x : α) (h : l.find? p = some x) (hcount : (l.filter p).length ≤ 1) :
    l.filter p = [x] := by
  induction l with
  | nil => simp at h
  | cons y ys ih =>
    by_cases hy : p y
    · rw [List.find?_cons_of_pos _ hy] at h
      cases h
      rw [List.filter_cons_of_pos hy] at hcount ⊢
      have hnil : ys.filter p = [] := by
        rw [← List.length_eq_zero]
        simp only [List.length_cons] at hcount
        omega
      rw [hnil]
    · rw [List.find?_cons_of_neg _ hy] at h
      rw [List.filter_cons_of_neg hy] at hcount ⊢
      exact ih h hcount

theorem filter_and_updateFirst (p g : α → Bool) (f : α → α) (l : List α)
    (x : α) (hpf : ∀ a, p (f a) = p a) (h : l.find? p = some x)
    (hcount : (l.filter p).length ≤ 1) :
    (updateFirst p f l).filter (fun a => p a && g a) =
      if g (f x) then [f x] else [] := by
  induction l with
  | nil => simp at h
  | cons y ys ih =>
    by_cases hy : p y
    · rw [List.find?_cons_of_pos _ hy] at h
      cases h
      rw [List.filter_cons_of_pos hy] at hcount
      have hnil : ys.filter p = [] := by
        rw [← List.length_eq_zero]
        simp only [List.length_cons] at hcount
        omega
      have hys' : ys.filter (fun a => p a && g a) = [] := by
        rw [List.filter_eq_nil_iff] at hnil ⊢
        intro a ha
        simp only [Bool.and_eq_true, not_and]
        intro hpa
        exact absurd hpa (hnil a ha)
      simp only [updateFirst, if_pos hy]
      by_cases hg : g (f x)
      · rw [List.filter_cons_of_pos (by simp [hpf, hy, hg]), hys']
        simp [hg]
      · rw [List.filter_cons_of_neg (by simp [hpf, hy, hg]), hys']
        simp [hg]
    · rw [List.find?_cons_of_neg _ hy] at h
      rw [List.filter_cons_of_neg hy] at hcount
      simp only [updateFirst, if_neg hy]
      rw [List.filter_cons_of_neg (by simp [hy])]
      exact ih h hcount

/-- The derived enrolled count of a course: Enrollment rows with
status=ENROLLED (academic_service.py 589 and passim). -/
def enrolledCount (db : DB) (course_id : Nat) : Nat :=
  (db.enrollments.filter (fun e => e.course_id == course_id
    && e.status == EnrollmentStatus.ENROLLED)).length

/-! ## Claim C1 -/

/-- A course for the enrollment fixtures. -/
def courseAlgo : Course :=
  { id := 3, name := "Algorithms", code := "CS301", department_id := 1,
    max_capacity := 30, is_active := true }

/-- Fixture: student 7's only enrollment for course 3 was dropped. -/
def dbDropped : DB :=
  { departments := [], programs := [], courses := [courseAlgo], users := [],
    enrollments := [{ id := 1, student_id := 7, course_id := 3,
                      program_id := 1, status := EnrollmentStatus.DROPPED,
                      is_active := false, final_grade := none }],
    program_lecturers := [], program_courses := [], next_id := 2 }

/-- C1: counterexample.  In `dbDropped` no Enrollment with status=ENROLLED
exists for (student 7, course 3) — the only prior row is DROPPED — yet
`enroll_student` rejects the pair with the duplicate-enrollment error instead
of creating a brand-new row, contradicting the claim that a dropped-only
student is not rejected. -/
theorem C1_counterexample :
    (∀ e ∈ dbDropped.enrollments, ¬(e.student_id = 7 ∧ e.course_id = 3 ∧
        e.status = EnrollmentStatus.ENROLLED))
    ∧ enroll_student dbDropped 7 3 1 =
        .error "Student is already enrolled in this course" :=
  ⟨by decide, by rfl⟩

/-- C1 (amended): `enroll_student` rejects with the AlreadyEnrolled error
exactly when *any* Enrollment row — of any status — exists for the
(student, course) pair; in particular a student whose only prior enrollment
was dropped is also rejected as a duplicate, and no brand-new row is
created for them. -/
theorem C1_duplicate_check_ignores_status (db : DB) (s c p : Nat) :
    enroll_student db s c p =
        .error "Student is already enrolled in this course"
    ↔ (db.enrollments.find?
        (fun e => e.student_id == s && e.course_id == c)).isSome := by
  unfold enroll_student
  cases h : db.enrollments.find?
      (fun e => e.student_id == s && e.course_id == c) with
  | some e => simp
  | none =>
    simp only [Option.isSome_none, Bool.false_eq_true, iff_false]
    cases hc : db.courses.find? (fun x => x.id == c) with
    | none => simp
    | some course =>
      dsimp only
      split
      · simp
      · simp

/-! ## Claim C2 -/

/-- Fixture: course 3 with capacity 2 and one enrolled student (id 9). -/
def dbOneSeatLeft : DB :=
  { departments := [], programs := [],
    courses := [{ courseAlgo with max_capacity := 2 }], users := [],
    enrollments := [{ id := 1, student_id := 9, course_id := 3,
                      program_id := 1, status := EnrollmentStatus.ENROLLED,
                      is_active := true, final_grade := none }],
    program_lecturers := [], program_courses := [], next_id := 2 }

/-- Fixture: course 3 with capacity 2 and exactly 2 enrolled students. -/
def dbFull : DB :=
  { dbOneSeatLeft with
    enrollments := dbOneSeatLeft.enrollments ++
      [{ id := 2, student_id := 10, course_id := 3, program_id := 1,
         status := EnrollmentStatus.ENROLLED, is_active := true,
         final_grade := none }],
    next_id := 3 }

/-- C2: for a student with no prior Enrollment row for the course and an
existing course, `enroll_student` rejects with CourseFull when the ENROLLED
count has reached `max_capacity` (inclusive `≥` check, so a course at
exactly capacity rejects the next request), and otherwise succeeds creating
exactly one new Enrollment row with status=ENROLLED. -/
theorem C2_capacity_boundary (db : DB) (s c p : Nat) (course : Course)
    (hno : db.enrollments.find?
      (fun e => e.student_id == s && e.course_id == c) = none)
    (hc : db.courses.find? (fun x => x.id == c) = some course) :
    (course.max_capacity ≤ enrolledCount db c →
        enroll_student db s c p = .error "Course is at full capacity")
    ∧ (enrolledCount db c < course.max_capacity →
        enroll_student db s c p = .ok { db with
          enrollments := db.enrollments ++
            [{ id := db.next_id, student_id := s, course_id := c,
               program_id := p, status := EnrollmentStatus.ENROLLED,
               is_active := true, final_grade := none }],
          next_id := db.next_id + 1 }) := by
  unfold enroll_student
  rw [hno, hc]
  dsimp only
  constructor
  · intro h
    rw [if_pos]
    exact h
  · intro h
    rw [if_neg]
    simp only [not_le]
    exact h

/-- C2 witness: with one of two seats taken, student 7 is enrolled and a new
ENROLLED row appears; with both seats taken, student 7 is rejected with the
capacity error. -/
theorem C2_capacity_boundary_witness :
    enroll_student dbOneSeatLeft 7 3 1 = .ok { dbOneSeatLeft with
      enrollments := dbOneSeatLeft.enrollments ++
        [{ id := 2, student_id := 7, course_id := 3, program_id := 1,
           status := EnrollmentStatus.ENROLLED, is_active := true,
           final_grade := none }],
      next_id := 3 }
    ∧ enroll_student dbFull 7 3 1 = .error "Course is at full capacity" :=
  ⟨(C2_capacity_boundary dbOneSeatLeft 7 3 1
      { courseAlgo with max_capacity := 2 } rfl rfl).2 (by decide),
   (C2_capacity_boundary dbFull 7 3 1
      { courseAlgo with max_capacity := 2 } rfl rfl).1 (by decide)⟩

/-! ## Claim C5 -/

/-- Shared helper: when every department bearing the (uppercased) requested
code is inactive, `create_department` succeeds and appends the new row. -/
theorem create_department_ok_of_all_inactive (db : DB) (d : DeptCreate)
    (hall : ∀ x ∈ db.departments, x.code = pyUpper d.code →
      x.is_active = false) :
    create_department db d = .ok { db with
      departments := db.departments ++
        [{ id := db.next_id, name := d.name, code := pyUpper d.code,
           description := d.description,
           is_active := d.is_active.getD true }],
      next_id := db.next_id + 1 } := by
  unfold create_department
  have h : db.departments.find?
      (fun x => x.code == pyUpper d.code && x.is_active) = none := by
    rw [List.find?_eq_none]
    intro x hx
    simp only [Bool.and_eq_true, beq_iff_eq, not_and]
    intro hcode
    rw [hall x hx hcode]
    simp
  rw [h]

/-- C5: `create_department` rejects with the code-already-exists error
exactly when another department bearing the uppercased code exists with
active=true; when every holder of the code is soft-deleted the creation
succeeds and appends the new department. -/
theorem C5_create_department_code_active_scope (db : DB) (d : DeptCreate) :
    ((∃ msg, create_department db d = .error msg) ↔
      ∃ x ∈ db.departments, x.code = pyUpper d.code ∧ x.is_active = true)
    ∧ ((∀ x ∈ db.departments, x.code = pyUpper d.code →
          x.is_active = false) →
        create_department db d = .ok { db with
          departments := db.departments ++
            [{ id := db.next_id, name := d.name, code := pyUpper d.code,
               description := d.description,
               is_active := d.is_active.getD true }],
          next_id := db.next_id + 1 }) := by
  unfold create_department
  cases h : db.departments.find?
      (fun x => x.code == pyUpper d.code && x.is_active) with
  | some dep =>
    dsimp only
    constructor
    · constructor
      · intro _
        have hp := List.find?_some h
        have hmem := List.mem_of_find?_eq_some h
        simp only [Bool.and_eq_true, beq_iff_eq] at hp
        exact ⟨dep, hmem, hp.1, hp.2⟩
      · intro _
        exact ⟨_, rfl⟩
    · intro hall
      have hp := List.find?_some h
      have hmem := List.mem_of_find?_eq_some h
      simp only [Bool.and_eq_true, beq_iff_eq] at hp
      have := hall dep hmem hp.1
      rw [this] at hp
      simp at hp
  | none =>
    dsimp only
    rw [List.find?_eq_none] at h
    constructor
    · constructor
      · rintro ⟨msg, hmsg⟩
        simp at hmsg
      · rintro ⟨x, hx, hcode, hact⟩
        exact absurd (by simp [hcode, hact]) (h x hx)
    · intro _
      rfl

/-- Fixture for the witnesses of C5 and C9: department code "CS" is held
only by a soft-deleted department; "EE" is active; program code "OLD" is
held only by a soft-deleted program, "NEW" is active. -/
def dbCodes : DB :=
  { departments :=
      [{ id := 1, name := "Old CS", code := "CS", description := "",
         is_active := false },
       { id := 2, name := "EE", code := "EE", description := "",
         is_active := true }],
    programs :=
      [{ id := 1, name := "Old prog", code := "OLD", description := "",
         program_type := "bachelor", department_id := 2,
         duration_years := 4, total_credits := 120, is_active := false },
       { id := 2, name := "New prog", code := "NEW", description := "",
         program_type := "bachelor", department_id := 2,
         duration_years := 4, total_credits := 120, is_active := true }],
    courses := [], users := [], enrollments := [], program_lecturers := [],
    program_courses := [], next_id := 3 }

/-- C5 witness: with "CS" held only by a soft-deleted department, creating a
new department with code "cs" succeeds and appends the row. -/
theorem C5_create_department_code_active_scope_witness :
    create_department dbCodes
      { name := "CS again", code := "cs", description := "",
        is_active := none } = .ok { dbCodes with
      departments := dbCodes.departments ++
        [{ id := 3, name := "CS again", code := "CS", description := "",
           is_active := true }],
      next_id := 4 } :=
  (C5_create_department_code_active_scope dbCodes
    { name := "CS again", code := "cs", description := "",
      is_active := none }).2 (by decide)

/-! ## Claim C9 -/

/-- C9: the rename-conflict checks of `update_department` and
`update_program` are *not* scoped to active rows — any other entity of the
same kind bearing the new code, soft-deleted or not, blocks the rename —
while `create_department` (active-scoped check) can still take a code whose
every holder is soft-deleted. -/
theorem C9_rename_conflict_ignores_active (db : DB) (did pid : Nat)
    (ddata : DeptUpdate) (pdata : ProgUpdate) (cd cp : String)
    (d : DeptCreate) :
    (∀ dept, db.departments.find? (fun x => x.id == did) = some dept →
      ddata.code = some cd → pyUpper cd ≠ dept.code →
      (∃ other ∈ db.departments, other.code = pyUpper cd ∧ other.id ≠ did) →
      update_department db did ddata = .error "Department code already exists")
    ∧ (∀ prog, db.programs.find? (fun x => x.id == pid) = some prog →
      pdata.code = some cp → pyUpper cp ≠ prog.code →
      (∃ other ∈ db.programs, other.code = pyUpper cp ∧ other.id ≠ pid) →
      update_program db pid pdata = .error "Program code already exists")
    ∧ ((∀ x ∈ db.departments, x.code = pyUpper d.code →
          x.is_active = false) →
        ∃ db', create_department db d = .ok db') := by
  refine ⟨?_, ?_, ?_⟩
  · intro dept hdept hcode hne hother
    unfold update_department
    rw [hdept]
    dsimp only
    rw [hcode]
    dsimp only
    rw [if_pos]
    simp only [Bool.and_eq_true, bne_iff_ne, ne_eq, Option.isSome_iff_exists]
    refine ⟨hne, ?_⟩
    obtain ⟨other, hmem, hoc, hoid⟩ := hother
    have : (db.departments.find?
        (fun x => x.code == pyUpper cd && x.id != did)).isSome := by
      rw [List.find?_isSome]
      exact ⟨other, hmem, by simp [hoc, hoid]⟩
    rw [Option.isSome_iff_exists] at this
    exact this
  · intro prog hprog hcode hne hother
    unfold update_program
    rw [hprog]
    dsimp only
    rw [hcode]
    dsimp only
    rw [if_pos]
    simp only [Bool.and_eq_true, bne_iff_ne, ne_eq, Option.isSome_iff_exists]
    refine ⟨hne, ?_⟩
    obtain ⟨other, hmem, hoc, hoid⟩ := hother
    have : (db.programs.find?
        (fun x => x.code == pyUpper cp && x.id != pid)).isSome := by
      rw [List.find?_isSome]
      exact ⟨other, hmem, by simp [hoc, hoid]⟩
    rw [Option.isSome_iff_exists] at this
    exact this
  · intro hall
    exact ⟨_, create_department_ok_of_all_inactive db d hall⟩

/-- C9 witness: in `dbCodes`, renaming active department 2 to "cs" — a code
held only by a soft-deleted department — is rejected, renaming active
program 2 to "old" is rejected, while creating a fresh department with code
"cs" succeeds. -/
theorem C9_rename_conflict_ignores_active_witness :
    update_department dbCodes 2
      { name := none, code := some "cs", description := none,
        is_active := none } = .error "Department code already exists"
    ∧ update_program dbCodes 2
      { name := none, code := some "old", description := none,
        program_type := none, department_id := none, duration_years := none,
        total_credits := none, is_active := none, lecturers := none } =
        .error "Program code already exists"
    ∧ ∃ db', create_department dbCodes
        { name := "CS again", code := "cs", description := "",
          is_active := none } = .ok db' := by
  have h := C9_rename_conflict_ignores_active dbCodes 2 2
    { name := none, code := some "cs", description := none,
      is_active := none }
    { name := none, code := some "old", description := none,
      program_type := none, department_id := none, duration_years := none,
      total_credits := none, is_active := none, lecturers := none }
    "cs" "old"
    { name := "CS again", code := "cs", description := "",
      is_active := none }
  refine ⟨?_, ?_, ?_⟩
  · exact h.1
      { id := 2, name := "EE", code := "EE", description := "",
        is_active := true }
      (by decide) rfl (by decide)
      ⟨{ id := 1, name := "Old CS", code := "CS", description := "",
         is_active := false }, by decide, by decide, by decide⟩
  · exact h.2.1
      { id := 2, name := "New prog", code := "NEW", description := "",
        program_type := "bachelor", department_id := 2,
        duration_years := 4, total_credits := 120, is_active := true }
      (by decide) rfl (by decide)
      ⟨{ id := 1, name := "Old prog", code := "OLD", description := "",
         program_type := "bachelor", department_id := 2,
         duration_years := 4, total_credits := 120, is_active := false },
       by decide, by decide, by decide⟩
  · exact h.2.2 (by decide)

/-! ## Claim C6 -/

/-- C6: unforced deletion of a department with an active program or course
fails with the blocking message interpolating both active counts (state
untouched, as the error carries no new state); forced deletion succeeds and
afterwards every program and course of the department is inactive, no user
points at the department any more, and the department itself is inactive. -/
theorem C6_delete_department_cascade (db : DB) (did : Nat)
    (hex : (db.departments.find? (fun d => d.id == did)).isSome) :
    ((db.programs.filter
        (fun p => p.department_id == did && p.is_active)).length > 0
      ∨ (db.courses.filter
        (fun c => c.department_id == did && c.is_active)).length > 0 →
      delete_department db did false =
        .error ("Cannot delete department. It has " ++
          toString (db.programs.filter
            (fun p => p.department_id == did && p.is_active)).length ++
          " active program(s) and " ++
          toString (db.courses.filter
            (fun c => c.department_id == did && c.is_active)).length ++
          " active course(s). Please deactivate or move them first."))
    ∧ (∀ db', delete_department db did true = .ok db' →
        (∀ p ∈ db'.programs, p.department_id = did → p.is_active = false)
        ∧ (∀ c ∈ db'.courses, c.department_id = did → c.is_active = false)
        ∧ (∀ u ∈ db'.users, u.department_id ≠ some did)
        ∧ ∃ dpt, db'.departments.find? (fun d => d.id == did) = some dpt
            ∧ dpt.is_active = false) := by
  rw [Option.isSome_iff_exists] at hex
  obtain ⟨dep, hdep⟩ := hex
  constructor
  · intro h
    unfold delete_department
    rw [hdep]
    dsimp only
    rw [if_pos (by rfl), if_pos]
    simp only [Bool.or_eq_true, decide_eq_true_eq]
    exact h.imp (fun x => x) (fun x => x)
  · intro db' heq
    unfold delete_department at heq
    rw [hdep] at heq
    dsimp only at heq
    rw [if_neg (by simp)] at heq
    rw [Except.ok.injEq] at heq
    subst heq
    refine ⟨?_, ?_, ?_, ?_⟩
    · intro p hp hpd
      obtain ⟨a, ha, rfl⟩ := List.mem_map.mp hp
      by_cases had : a.department_id == did
      · simp [had]
      · rw [if_neg had] at hpd ⊢
        exact absurd (by simp [hpd]) had
    · intro c hc hcd
      obtain ⟨a, ha, rfl⟩ := List.mem_map.mp hc
      by_cases had : a.department_id == did
      · simp [had]
      · rw [if_neg had] at hcd ⊢
        exact absurd (by simp [hcd]) had
    · intro u hu
      obtain ⟨a, ha, rfl⟩ := List.mem_map.mp hu
      by_cases had : a.department_id == some did
      · simp [had]
      · rw [if_neg had]
        simpa using had
    · refine ⟨{ dep with is_active := false }, ?_, rfl⟩
      exact find?_updateFirst_self _ _ _ _ (fun a => rfl) hdep

/-- Fixture for C6: department 1 with one active program, one active course,
one lecturer attached to it, and an unrelated user in department 2. -/
def dbDept : DB :=
  { departments :=
      [{ id := 1, name := "CS", code := "CS", description := "",
         is_active := true }],
    programs :=
      [{ id := 1, name := "BSc CS", code := "BSCS", description := "",
         program_type := "bachelor", department_id := 1,
         duration_years := 4, total_credits := 120, is_active := true }],
    courses := [{ courseAlgo with department_id := 1 }],
    users :=
      [{ id := 5, name := "Dr. L", role := UserRole.LECTURER,
         department_id := some 1, is_active := true },
       { id := 6, name := "Dr. M", role := UserRole.LECTURER,
         department_id := some 2, is_active := true }],
    enrollments := [], program_lecturers := [], program_courses := [],
    next_id := 10 }

/-- C6 witness: unforced deletion of department 1 in `dbDept` is rejected
with the counts {programs:1, courses:1} in the message; forced deletion
yields a state where the cascade has fully applied. -/
theorem C6_delete_department_cascade_witness :
    delete_department dbDept 1 false =
      .error ("Cannot delete department. It has 1 active program(s) and " ++
        "1 active course(s). Please deactivate or move them first.")
    ∧ ∀ db', delete_department dbDept 1 true = .ok db' →
        (∀ p ∈ db'.programs, p.department_id = 1 → p.is_active = false)
        ∧ (∀ c ∈ db'.courses, c.department_id = 1 → c.is_active = false)
        ∧ (∀ u ∈ db'.users, u.department_id ≠ some 1)
        ∧ ∃ dpt, db'.departments.find? (fun d => d.id == 1) = some dpt
            ∧ dpt.is_active = false := by
  have h := C6_delete_department_cascade dbDept 1 (by decide)
  constructor
  · have h1 := h.1 (by decide)
    rw [h1]
    rfl
  · exact h.2

/-! ## Claim C7 -/

/-- A program for the delete_program fixtures. -/
def programBase : Program :=
  { id := 1, name := "BSc CS", code := "BSCS", description := "",
    program_type := "bachelor", department_id := 1, duration_years := 4,
    total_credits := 120, is_active := true }

/-- Fixture: program 1 with one ENROLLED enrollment. -/
def dbOneEnrolled : DB :=
  { departments := [], programs := [programBase], courses := [courseAlgo],
    users := [],
    enrollments := [{ id := 1, student_id := 7, course_id := 3,
                      program_id := 1, status := EnrollmentStatus.ENROLLED,
                      is_active := true, final_grade := none }],
    program_lecturers := [], program_courses := [], next_id := 2 }

/-- Fixture: program 1 with two ENROLLED enrollments. -/
def dbTwoEnrolled : DB :=
  { dbOneEnrolled with
    enrollments := dbOneEnrolled.enrollments ++
      [{ id := 2, student_id := 8, course_id := 3, program_id := 1,
         status := EnrollmentStatus.ENROLLED, is_active := true,
         final_grade := none }],
    next_id := 3 }

/-- C7: counterexample.  The unforced rejection of `delete_program` is the
same fixed string whether the program has 1 or 2 active enrollments, so the
rejection does not carry the count of active enrollments as claimed
(contrast `delete_department`, whose message interpolates its counts). -/
theorem C7_counterexample :
    (dbOneEnrolled.enrollments.filter (fun e => e.program_id == 1
      && e.status == EnrollmentStatus.ENROLLED)).length = 1
    ∧ (dbTwoEnrolled.enrollments.filter (fun e => e.program_id == 1
      && e.status == EnrollmentStatus.ENROLLED)).length = 2
    ∧ delete_program dbOneEnrolled 1 false =
        .error "Cannot delete program with active enrollments"
    ∧ delete_program dbTwoEnrolled 1 false =
        .error "Cannot delete program with active enrollments" :=
  ⟨by decide, by decide, by rfl, by rfl⟩

/-- C7 (amended): `delete_program` on an existing program with at least one
status=ENROLLED enrollment and force=false is rejected — with a fixed
message that does *not* carry the count of active enrollments; with
force=true it succeeds and afterwards every Enrollment referencing the
program has status=DROPPED and is_active=false and the Program has
is_active=false. -/
theorem C7_delete_program_cascade (db : DB) (pid : Nat)
    (hex : (db.programs.find? (fun p => p.id == pid)).isSome) :
    ((db.enrollments.filter (fun e => e.program_id == pid
        && e.status == EnrollmentStatus.ENROLLED)).length > 0 →
      delete_program db pid false =
        .error "Cannot delete program with active enrollments")
    ∧ (∀ db', delete_program db pid true = .ok db' →
        (∀ e ∈ db'.enrollments, e.program_id = pid →
          e.status = EnrollmentStatus.DROPPED ∧ e.is_active = false)
        ∧ ∃ pr, db'.programs.find? (fun p => p.id == pid) = some pr
            ∧ pr.is_active = false) := by
  rw [Option.isSome_iff_exists] at hex
  obtain ⟨prog, hprog⟩ := hex
  constructor
  · intro h
    unfold delete_program
    rw [hprog]
    dsimp only
    rw [if_pos (by rfl), if_pos]
    simpa using h
  · intro db' heq
    unfold delete_program at heq
    rw [hprog] at heq
    dsimp only at heq
    rw [if_neg (by simp)] at heq
    rw [Except.ok.injEq] at heq
    subst heq
    constructor
    · intro e he hed
      obtain ⟨a, ha, rfl⟩ := List.mem_map.mp he
      by_cases had : a.program_id == pid
      · simp [had]
      · rw [if_neg had] at hed ⊢
        exact absurd (by simp [hed]) had
    · refine ⟨{ prog with is_active := false }, ?_, rfl⟩
      exact find?_updateFirst_self _ _ _ _ (fun a => rfl) hprog

/-- C7 witness: unforced deletion of program 1 in `dbOneEnrolled` is
rejected; forced deletion yields a state where the single enrollment is
DROPPED and inactive and the program is inactive. -/
theorem C7_delete_program_cascade_witness :
    delete_program dbOneEnrolled 1 false =
      .error "Cannot delete program with active enrollments"
    ∧ ∀ db', delete_program dbOneEnrolled 1 true = .ok db' →
        (∀ e ∈ db'.enrollments, e.program_id = 1 →
          e.status = EnrollmentStatus.DROPPED ∧ e.is_active = false)
        ∧ ∃ pr, db'.programs.find? (fun p => p.id == 1) = some pr
            ∧ pr.is_active = false := by
  have h := C7_delete_program_cascade dbOneEnrolled 1 (by decide)
  exact ⟨h.1 (by decide), h.2⟩

/-! ## Claim C3 -/

/-- C3: both link-creation endpoints follow the same three-way decision.
For `assign_lecturer_to_program` (admin actor, nonzero lecturer id, program
and lecturer present): no ProgramLecturer row for the pair → a new active
row is inserted; an active row → rejected as already assigned; only an
inactive row (the first row found for the pair being inactive) → that same
row is flipped active with role, assigned-by and timestamp overwritten from
the request, and no new row is inserted (row count unchanged).
`allocate_course_to_program` behaves identically over ProgramCourse with
is_required/semester_order as the mutable attributes. -/
theorem C3_link_creation_three_way (db : DB) (pid aid lid cid : Nat)
    (role : String) (req : Bool) (ord : Int) (now : Nat)
    (hlid : lid ≠ 0) (hcid : cid ≠ 0)
    (hp : (db.programs.find? (fun p => p.id == pid)).isSome)
    (hl : (db.users.find? (fun u => u.id == lid
        && u.role == UserRole.LECTURER)).isSome)
    (hc : (db.courses.find? (fun c => c.id == cid)).isSome) :
    ((db.program_lecturers.find? (fun a => a.program_id == pid
        && a.lecturer_id == lid) = none →
      assign_lecturer_to_program db pid aid UserRole.ADMIN (some lid) role
          now = .ok { db with
        program_lecturers := db.program_lecturers ++
          [{ id := db.next_id, program_id := pid, lecturer_id := lid,
             role := role, assigned_by_id := some aid, assigned_at := now,
             is_active := true }],
        next_id := db.next_id + 1 })
    ∧ (∀ ex, db.program_lecturers.find? (fun a => a.program_id == pid
        && a.lecturer_id == lid) = some ex → ex.is_active = true →
      assign_lecturer_to_program db pid aid UserRole.ADMIN (some lid) role
          now = .error (400, "Lecturer is already assigned to this program"))
    ∧ (∀ ex, db.program_lecturers.find? (fun a => a.program_id == pid
        && a.lecturer_id == lid) = some ex → ex.is_active = false →
      assign_lecturer_to_program db pid aid UserRole.ADMIN (some lid) role
          now = .ok { db with
        program_lecturers := updateFirst (fun a => a.program_id == pid
            && a.lecturer_id == lid)
          (fun a => { a with
                      is_active := true, role := role,
                      assigned_by_id := some aid,
                      assigned_at := now }) db.program_lecturers }
      ∧ (updateFirst (fun a => a.program_id == pid && a.lecturer_id == lid)
          (fun a => { a with
                      is_active := true, role := role,
                      assigned_by_id := some aid,
                      assigned_at := now })
          db.program_lecturers).length = db.program_lecturers.length))
    ∧ ((db.program_courses.find? (fun a => a.program_id == pid
        && a.course_id == cid) = none →
      allocate_course_to_program db pid aid UserRole.ADMIN (some cid) req ord
          now = .ok { db with
        program_courses := db.program_courses ++
          [{ id := db.next_id, program_id := pid, course_id := cid,
             is_required := req, semester_order := ord,
             allocated_by_id := some aid, allocated_at := now,
             is_active := true }],
        next_id := db.next_id + 1 })
    ∧ (∀ ex, db.program_courses.find? (fun a => a.program_id == pid
        && a.course_id == cid) = some ex → ex.is_active = true →
      allocate_course_to_program db pid aid UserRole.ADMIN (some cid) req ord
          now = .error (400, "Course is already allocated to this program"))
    ∧ (∀ ex, db.program_courses.find? (fun a => a.program_id == pid
        && a.course_id == cid) = some ex → ex.is_active = false →
      allocate_course_to_program db pid aid UserRole.ADMIN (some cid) req ord
          now = .ok { db with
        program_courses := updateFirst (fun a => a.program_id == pid
            && a.course_id == cid)
          (fun a => { a with
                      is_active := true, is_required := req,
                      semester_order := ord,
                      allocated_by_id := some aid,
                      allocated_at := now }) db.program_courses }
      ∧ (updateFirst (fun a => a.program_id == pid && a.course_id == cid)
          (fun a => { a with
                      is_active := true, is_required := req,
                      semester_order := ord,
                      allocated_by_id := some aid,
                      allocated_at := now })
          db.program_courses).length = db.program_courses.length)) := by
  rw [Option.isSome_iff_exists] at hp hl hc
  obtain ⟨pr, hpr⟩ := hp
  obtain ⟨lu, hlu⟩ := hl
  obtain ⟨co, hco⟩ := hc
  refine ⟨⟨?_, ?_, ?_⟩, ?_, ?_, ?_⟩
  · intro hpair
    unfold assign_lecturer_to_program
    rw [if_neg (by decide)]
    dsimp only
    rw [if_neg (by simp [hlid]), hpr]
    dsimp only
    rw [hlu]
    dsimp only
    rw [hpair]
  · intro ex hpair hact
    unfold assign_lecturer_to_program
    rw [if_neg (by decide)]
    dsimp only
    rw [if_neg (by simp [hlid]), hpr]
    dsimp only
    rw [hlu]
    dsimp only
    rw [hpair]
    dsimp only
    rw [if_pos hact]
  · intro ex hpair hact
    unfold assign_lecturer_to_program
    rw [if_neg (by decide)]
    dsimp only
    rw [if_neg (by simp [hlid]), hpr]
    dsimp only
    rw [hlu]
    dsimp only
    rw [hpair]
    dsimp only
    rw [if_neg (by simp [hact])]
    exact ⟨rfl, updateFirst_length _ _ _⟩
  · intro hpair
    unfold allocate_course_to_program
    rw [if_neg (by decide)]
    dsimp only
    rw [if_neg (by simp [hcid]), hpr]
    dsimp only
    rw [hco]
    dsimp only
    rw [hpair]
  · intro ex hpair hact
    unfold allocate_course_to_program
    rw [if_neg (by decide)]
    dsimp only
    rw [if_neg (by simp [hcid]), hpr]
    dsimp only
    rw [hco]
    dsimp only
    rw [hpair]
    dsimp only
    rw [if_pos hact]
  · intro ex hpair hact
    unfold allocate_course_to_program
    rw [if_neg (by decide)]
    dsimp only
    rw [if_neg (by simp [hcid]), hpr]
    dsimp only
    rw [hco]
    dsimp only
    rw [hpair]
    dsimp only
    rw [if_neg (by simp [hact])]
    exact ⟨rfl, updateFirst_length _ _ _⟩

/-- Fixture for C3/C4/C10: program 1, lecturer 5, course 3; no
ProgramLecturer rows; one inactive ProgramCourse row for (1, 3). -/
def dbLinks : DB :=
  { departments := [], programs := [programBase], courses := [courseAlgo],
    users := [{ id := 5, name := "Dr. L", role := UserRole.LECTURER,
                department_id := some 1, is_active := true }],
    enrollments := [], program_lecturers := [],
    program_courses := [{ id := 2, program_id := 1, course_id := 3,
                          is_required := true, semester_order := 1,
                          allocated_by_id := some 9, allocated_at := 10,
                          is_active := false }],
    next_id := 7 }

/-- C3 witness: with no ProgramLecturer row for (1, 5) the assignment
inserts a fresh active row; with an inactive ProgramCourse row for (1, 3)
the allocation reactivates that row in place, overwriting
is_required/semester_order/allocated-by/at. -/
theorem C3_link_creation_three_way_witness :
    assign_lecturer_to_program dbLinks 1 9 UserRole.ADMIN (some 5)
      "coordinator" 100 = .ok { dbLinks with
        program_lecturers :=
          [{ id := 7, program_id := 1, lecturer_id := 5,
             role := "coordinator", assigned_by_id := some 9,
             assigned_at := 100, is_active := true }],
        next_id := 8 }
    ∧ allocate_course_to_program dbLinks 1 9 UserRole.ADMIN (some 3)
      false 2 100 = .ok { dbLinks with
        program_courses :=
          updateFirst (fun a => a.program_id == 1 && a.course_id == 3)
            (fun a => { a with
                        is_active := true, is_required := false,
                        semester_order := 2, allocated_by_id := some 9,
                        allocated_at := 100 }) dbLinks.program_courses } := by
  have h := C3_link_creation_three_way dbLinks 1 9 5 3 "coordinator" false 2
    100 (by decide) (by decide) (by decide) (by decide) (by decide)
  exact ⟨h.1.1 rfl,
    (h.2.2.2 { id := 2, program_id := 1, course_id := 3,
               is_required := true, semester_order := 1,
               allocated_by_id := some 9, allocated_at := 10,
               is_active := false } rfl rfl).1⟩

/-! ## Claim C4 -/

/-- C4: for a (program, lecturer) pair holding at most one ProgramLecturer
row, a successful `assign_lecturer_to_program` leaves exactly one *active*
row for the pair whose role is the request's role; and when the pair is
already actively assigned the call never produces a new state. -/
theorem C4_single_active_assignment (db : DB) (pid aid lid : Nat)
    (role : String) (now : Nat)
    (hcount : (db.program_lecturers.filter (fun a => a.program_id == pid
        && a.lecturer_id == lid)).length ≤ 1) :
    (∀ db', assign_lecturer_to_program db pid aid UserRole.ADMIN (some lid)
        role now = .ok db' →
      ∃ r, db'.program_lecturers.filter
          (fun a => (a.program_id == pid && a.lecturer_id == lid)
            && a.is_active) = [r] ∧ r.role = role)
    ∧ (∀ ex, db.program_lecturers.find? (fun a => a.program_id == pid
        && a.lecturer_id == lid) = some ex → ex.is_active = true →
      ∀ db', assign_lecturer_to_program db pid aid UserRole.ADMIN (some lid)
        role now ≠ .ok db') := by
  constructor
  · intro db' hok
    unfold assign_lecturer_to_program at hok
    rw [if_neg (by decide)] at hok
    dsimp only at hok
    by_cases h0 : (lid == 0) = true
    · rw [if_pos h0] at hok
      simp at hok
    · rw [if_neg h0] at hok
      cases hpr : db.programs.find? (fun p => p.id == pid) with
      | none => rw [hpr] at hok; simp at hok
      | some pr =>
      rw [hpr] at hok
      dsimp only at hok
      cases hlu : db.users.find? (fun u => u.id == lid
          && u.role == UserRole.LECTURER) with
      | none => rw [hlu] at hok; simp at hok
      | some lu =>
      rw [hlu] at hok
      dsimp only at hok
      cases hpair : db.program_lecturers.find? (fun a => a.program_id == pid
          && a.lecturer_id == lid) with
      | none =>
        rw [hpair] at hok
        dsimp only at hok
        rw [Except.ok.injEq] at hok
        subst hok
        refine ⟨{ id := db.next_id, program_id := pid, lecturer_id := lid,
                  role := role, assigned_by_id := some aid,
                  assigned_at := now, is_active := true }, ?_, rfl⟩
        dsimp only
        rw [List.filter_append]
        rw [filter_eq_nil_of_find?_none
          (fun a => a.program_id == pid && a.lecturer_id == lid)
          (fun a => (a.program_id == pid && a.lecturer_id == lid)
            && a.is_active)
          db.program_lecturers (by intro a h; simp at h ⊢; exact h.1) hpair]
        simp
      | some ex =>
        rw [hpair] at hok
        dsimp only at hok
        by_cases hact : ex.is_active = true
        · rw [if_pos hact] at hok
          simp at hok
        · rw [if_neg hact] at hok
          rw [Except.ok.injEq] at hok
          subst hok
          have hres := filter_and_updateFirst
            (fun a => a.program_id == pid && a.lecturer_id == lid)
            (fun a => a.is_active)
            (fun a => { a with
                        is_active := true, role := role,
                        assigned_by_id := some aid, assigned_at := now })
            db.program_lecturers ex (fun a => rfl) hpair hcount
          rw [if_pos rfl] at hres
          exact ⟨_, hres, rfl⟩
  · intro ex hpair hact db' hok
    unfold assign_lecturer_to_program at hok
    rw [if_neg (by decide)] at hok
    dsimp only at hok
    by_cases h0 : (lid == 0) = true
    · rw [if_pos h0] at hok
      simp at hok
    · rw [if_neg h0] at hok
      cases hpr : db.programs.find? (fun p => p.id == pid) with
      | none => rw [hpr] at hok; simp at hok
      | some pr =>
      rw [hpr] at hok
      dsimp only at hok
      cases hlu : db.users.find? (fun u => u.id == lid
          && u.role == UserRole.LECTURER) with
      | none => rw [hlu] at hok; simp at hok
      | some lu =>
      rw [hlu] at hok
      dsimp only at hok
      rw [hpair] at hok
      dsimp only at hok
      rw [if_pos hact] at hok
      simp at hok

/-- C4 witness: in `dbLinks` (no row for the pair) the assignment succeeds
and the pair has exactly one active row with the requested role; in the
resulting state a second identical call produces no new state. -/
theorem C4_single_active_assignment_witness :
    (∃ r, (({ dbLinks with
        program_lecturers :=
          [{ id := 7, program_id := 1, lecturer_id := 5,
             role := "coordinator", assigned_by_id := some 9,
             assigned_at := 100, is_active := true }],
        next_id := 8 } : DB)).program_lecturers.filter
          (fun a => (a.program_id == 1 && a.lecturer_id == 5)
            && a.is_active) = [r] ∧ r.role = "coordinator")
    ∧ (∀ db', assign_lecturer_to_program { dbLinks with
        program_lecturers :=
          [{ id := 7, program_id := 1, lecturer_id := 5,
             role := "coordinator", assigned_by_id := some 9,
             assigned_at := 100, is_active := true }],
        next_id := 8 } 1 9 UserRole.ADMIN (some 5) "coordinator" 100 ≠
          .ok db') := by
  constructor
  · exact (C4_single_active_assignment dbLinks 1 9 5 "coordinator" 100
      (by decide)).1 _ (by rfl)
  · intro db'
    exact (C4_single_active_assignment { dbLinks with
        program_lecturers :=
          [{ id := 7, program_id := 1, lecturer_id := 5,
             role := "coordinator", assigned_by_id := some 9,
             assigned_at := 100, is_active := true }],
        next_id := 8 } 1 9 5 "coordinator" 100 (by decide)).2
      { id := 7, program_id := 1, lecturer_id := 5, role := "coordinator",
        assigned_by_id := some 9, assigned_at := 100, is_active := true }
      (by rfl) (by rfl) db'

/-! ## Claim C10 -/

theorem mkAssignments_map_lecturer (pid : Nat) (nid : Nat) (ls : List Nat) :
    (mkAssignments pid nid ls).map (fun r => r.lecturer_id) = ls := by
  induction ls generalizing nid with
  | nil => rfl
  | cons x xs ih => simp [mkAssignments, ih]

theorem mkAssignments_fields (pid nid : Nat) (ls : List Nat) :
    ∀ r ∈ mkAssignments pid nid ls,
      r.program_id = pid ∧ r.role = "lecturer" ∧ r.is_active = true := by
  induction ls generalizing nid with
  | nil => intro r hr; simp [mkAssignments] at hr
  | cons x xs ih =>
    intro r hr
    simp only [mkAssignments, List.mem_cons] at hr
    cases hr with
    | inl h => subst h; exact ⟨rfl, rfl, rfl⟩
    | inr h => exact ih _ r h

/-- C10: a successful `update_program` whose payload carries a `lecturers`
list deactivates *every* pre-existing ProgramLecturer row of the program
(active or inactive) and appends a brand-new row with role "lecturer" for
each listed id naming an existing lecturer — one appended row per valid id,
with no reactivation of existing rows for the pair, so an existing
(program, lecturer) row gets a duplicate. -/
theorem C10_lecturer_list_duplicates_rows (db : DB) (pid : Nat)
    (data : ProgUpdate) (ls : List Nat) (db' : DB)
    (hls : data.lecturers = some ls)
    (hok : update_program db pid data = .ok db') :
    ∃ newRows,
      db'.program_lecturers =
        db.program_lecturers.map (fun a =>
          if a.program_id == pid then { a with is_active := false } else a)
        ++ newRows
      ∧ newRows.map (fun r => r.lecturer_id) =
          (ls.filter (fun lid => lid != 0)).filter (fun lid =>
            (db.users.find? (fun u => u.id == lid
              && u.role == UserRole.LECTURER)).isSome)
      ∧ ∀ r ∈ newRows, r.program_id = pid ∧ r.role = "lecturer"
          ∧ r.is_active = true := by
  unfold update_program at hok
  cases hpr : db.programs.find? (fun p => p.id == pid) with
  | none => rw [hpr] at hok; simp at hok
  | some prog =>
    rw [hpr] at hok
    dsimp only at hok
    rw [hls] at hok
    split at hok
    · simp at hok
    · dsimp only at hok
      rw [Except.ok.injEq] at hok
      subst hok
      refine ⟨mkAssignments pid db.next_id
        ((ls.filter (fun lid => lid != 0)).filter (fun lid =>
          (db.users.find? (fun u => u.id == lid
            && u.role == UserRole.LECTURER)).isSome)), rfl, ?_, ?_⟩
      · exact mkAssignments_map_lecturer _ _ _
      · exact mkAssignments_fields _ _ _

/-- Fixture for the C10 witness: program 1 already has an *active*
ProgramLecturer row for lecturer 5. -/
def dbDupLink : DB :=
  { dbLinks with
    program_lecturers :=
      [{ id := 2, program_id := 1, lecturer_id := 5, role := "coordinator",
         assigned_by_id := some 9, assigned_at := 10, is_active := true }] }

/-- The payload `{"lecturers": [5]}` for `update_program`. -/
def lecturerListPayload : ProgUpdate :=
  { name := none, code := none, description := none, program_type := none,
    department_id := none, duration_years := none, total_credits := none,
    is_active := none, lecturers := some [5] }

/-- C10 witness: updating program 1 of `dbDupLink` with lecturers=[5]
deactivates the existing (1, 5) row and appends a second, brand-new row for
the same pair with role "lecturer" — a duplicate instead of a
reactivation. -/
theorem C10_lecturer_list_duplicates_rows_witness :
    ∃ newRows,
      ({ dbDupLink with
        program_lecturers :=
          [{ id := 2, program_id := 1, lecturer_id := 5,
             role := "coordinator", assigned_by_id := some 9,
             assigned_at := 10, is_active := false },
           { id := 7, program_id := 1, lecturer_id := 5,
             role := "lecturer", assigned_by_id := none, assigned_at := 0,
             is_active := true }],
        next_id := 8 } : DB).program_lecturers =
        dbDupLink.program_lecturers.map (fun a =>
          if a.program_id == 1 then { a with is_active := false } else a)
        ++ newRows
      ∧ newRows.map (fun r => r.lecturer_id) =
          (([5] : List Nat).filter (fun lid => lid != 0)).filter (fun lid =>
            (dbDupLink.users.find? (fun u => u.id == lid
              && u.role == UserRole.LECTURER)).isSome)
      ∧ ∀ r ∈ newRows, r.program_id = 1 ∧ r.role = "lecturer"
          ∧ r.is_active = true :=
  C10_lecturer_list_duplicates_rows dbDupLink 1 lecturerListPayload [5] _
    rfl (by rfl)

/-! ## Claim C8 -/

/-- C8: counterexample.  The admin `update_enrollment` endpoint feeds any
lowercased `"status"` value to the EnrollmentStatus constructor, so a
DROPPED row is set straight back to ENROLLED — a transition the claim says
no operation ever performs. -/
theorem C8_counterexample :
    (dbDropped.enrollments.find? (fun e => e.id == 1)).map
        (fun e => e.status) = some EnrollmentStatus.DROPPED
    ∧ update_enrollment dbDropped 1 UserRole.ADMIN
        { status := some "enrolled", final_grade := none } =
      .ok { dbDropped with
            enrollments :=
              [{ id := 1, student_id := 7, course_id := 3,
                 program_id := 1, status := EnrollmentStatus.ENROLLED,
                 is_active := false, final_grade := none }] } :=
  ⟨by rfl, by rfl⟩

/-- C8 (amended): `enroll_student` never mutates an existing Enrollment row
— a successful call only appends one new ENROLLED row — and the
`delete_program` paths leave every existing row unchanged or move its
status to DROPPED; however the admin `update_enrollment` endpoint accepts
any valid status value, so an existing row's status *can* be set from
DROPPED or COMPLETED back to ENROLLED through it. -/
theorem C8_status_transitions (db : DB) (s c p pid eid : Nat)
    (force : Bool) (req : EnrollUpdate) :
    (∀ db', enroll_student db s c p = .ok db' →
      ∃ r, db'.enrollments = db.enrollments ++ [r]
        ∧ r.status = EnrollmentStatus.ENROLLED)
    ∧ (∀ db', delete_program db pid force = .ok db' →
      db'.enrollments.length = db.enrollments.length
      ∧ ∀ i (h1 : i < db.enrollments.length)
          (h2 : i < db'.enrollments.length),
        db'.enrollments[i] = db.enrollments[i]
        ∨ (db'.enrollments[i]).status = EnrollmentStatus.DROPPED)
    ∧ (req.status = some "enrolled" →
      ∀ db', update_enrollment db eid UserRole.ADMIN req = .ok db' →
        ∀ e', db'.enrollments.find? (fun e => e.id == eid) = some e' →
          e'.status = EnrollmentStatus.ENROLLED) := by
  refine ⟨?_, ?_, ?_⟩
  · intro db' hok
    unfold enroll_student at hok
    cases hpair : db.enrollments.find?
        (fun e => e.student_id == s && e.course_id == c) with
    | some e => rw [hpair] at hok; simp at hok
    | none =>
      rw [hpair] at hok
      dsimp only at hok
      cases hc : db.courses.find? (fun x => x.id == c) with
      | none => rw [hc] at hok; simp at hok
      | some course =>
        rw [hc] at hok
        dsimp only at hok
        split at hok
        · simp at hok
        · rw [Except.ok.injEq] at hok
          subst hok
          exact ⟨_, rfl, rfl⟩
  · intro db' hok
    unfold delete_program at hok
    cases hpr : db.programs.find? (fun x => x.id == pid) with
    | none => rw [hpr] at hok; simp at hok
    | some prog =>
      rw [hpr] at hok
      dsimp only at hok
      cases force with
      | false =>
        rw [if_pos (by rfl)] at hok
        split at hok
        · simp at hok
        · rw [Except.ok.injEq] at hok
          subst hok
          exact ⟨rfl, fun i h1 h2 => Or.inl rfl⟩
      | true =>
        rw [if_neg (by simp)] at hok
        rw [Except.ok.injEq] at hok
        subst hok
        refine ⟨List.length_map _ _, fun i h1 h2 => ?_⟩
        rw [List.getElem_map]
        by_cases hm : (db.enrollments[i].program_id == pid) = true
        · rw [if_pos hm]
          exact Or.inr rfl
        · rw [if_neg hm]
          exact Or.inl rfl
  · intro hst db' hok e' hfind
    unfold update_enrollment at hok
    rw [if_neg (by decide)] at hok
    cases hex : db.enrollments.find? (fun e => e.id == eid) with
    | none => rw [hex] at hok; simp at hok
    | some ex =>
      rw [hex] at hok
      dsimp only at hok
      rw [hst] at hok
      dsimp only at hok
      rw [show EnrollmentStatus.ofString? (pyLower "enrolled") =
        some EnrollmentStatus.ENROLLED from rfl] at hok
      dsimp only at hok
      rw [Except.ok.injEq] at hok
      subst hok
      cases hfg : req.final_grade with
      | none =>
        rw [hfg] at hfind
        dsimp only at hfind
        rw [find?_updateFirst_self (fun e => e.id == eid)
          (fun e => { e with status := EnrollmentStatus.ENROLLED })
          db.enrollments ex (fun a => rfl) hex] at hfind
        cases hfind
        rfl
      | some g =>
        rw [hfg] at hfind
        dsimp only at hfind
        rw [find?_updateFirst_self (fun e => e.id == eid)
          (fun e => { e with
                      status := EnrollmentStatus.ENROLLED,
                      final_grade := some g })
          db.enrollments ex (fun a => rfl) hex] at hfind
        cases hfind
        rfl

/-- C8 witness: enrolling student 7 in `dbOneSeatLeft` appends one ENROLLED
row; force-deleting program 1 of `dbOneEnrolled` only moves statuses to
DROPPED; and updating the dropped enrollment of `dbDropped` with
status="enrolled" yields a row whose status is ENROLLED again. -/
theorem C8_status_transitions_witness :
    (∃ r, ({ dbOneSeatLeft with
             enrollments := dbOneSeatLeft.enrollments ++
               [{ id := 2, student_id := 7, course_id := 3, program_id := 1,
                  status := EnrollmentStatus.ENROLLED, is_active := true,
                  final_grade := none }],
             next_id := 3 } : DB).enrollments =
          dbOneSeatLeft.enrollments ++ [r]
        ∧ r.status = EnrollmentStatus.ENROLLED)
    ∧ ({ id := 1, student_id := 7, course_id := 3, program_id := 1,
         status := EnrollmentStatus.ENROLLED, is_active := false,
         final_grade := none } : Enrollment).status =
        EnrollmentStatus.ENROLLED := by
  constructor
  · exact (C8_status_transitions dbOneSeatLeft 7 3 1 1 1 false
      { status := none, final_grade := none }).1 _ (by rfl)
  · exact (C8_status_transitions dbDropped 7 3 1 1 1 false
      { status := some "enrolled", final_grade := none }).2.2 rfl _ (by rfl)
      _ (by rfl)

end ELearn
